import Mathlib

/-!
Shallow embedding of `src/image_cache/image_loader.rs` (emulsion).

The decode worker loop (`ImageLoader::thread_loop`), the drop/shutdown
sequence (`impl Drop for ImageLoader`), the mipmap computation of
`texture_from_image`, the frame-delay computation, and the extension
allow-list `is_file_supported` are translated here.  Filesystem and codec
primitives (`fs::metadata`, `fs::File::open`, `read_exact`,
`image::guess_format`, `GifDecoder`, `image::open`) are external library
calls; they are modelled by an oracle structure `Env` whose fields give,
per path, the outcome each call produces.  Machine integers (`u32`,
`u64`) are modelled as `Nat` with explicit `% 2 ^ w` at the points where
wrap-around can occur.
-/

set_option autoImplicit false

/-- Opaque stand-in for `std::fs::Metadata` (its contents are never
inspected by the loader, only forwarded in the `Start` event). -/
structure Metadata where
  len : Nat
deriving DecidableEq

/-- Stand-in for `image::RgbaImage`: a width, a height (both `u32`) and the
raw pixel bytes.  The loader forwards buffers without inspecting them;
`texture_from_image` uses only the dimensions. -/
structure RgbaImage where
  width : Nat
  height : Nat
  data : List Nat
deriving DecidableEq

/-- One successfully decoded animation frame as the `image` crate hands it
over: the `(numerator_ms, denom_ms)` pair from `Delay::numer_denom_ms`
(both `u32`) and the RGBA buffer from `Frame::into_buffer`. -/
structure GifFrame where
  numer_ms : Nat
  denom_ms : Nat
  buffer : RgbaImage
deriving DecidableEq

/-- `LoadRequest` from the source: a caller-chosen `req_id : u32` and a
path (paths are modelled as strings). -/
structure LoadRequest where
  req_id : Nat
  path : String
deriving DecidableEq

/-- `LoadResult` from the source, the per-request event protocol. -/
inductive LoadResult where
  | Start (req_id : Nat) (metadata : Metadata)
  | Frame (req_id : Nat) (image : RgbaImage) (delay_nano : Nat)
  | Done (req_id : Nat)
  | Failed (req_id : Nat)
deriving DecidableEq

/-- `LoadResult::req_id` from the source. -/
def LoadResult.req_id : LoadResult → Nat
  | LoadResult.Start id _ => id
  | LoadResult.Frame id _ _ => id
  | LoadResult.Done id => id
  | LoadResult.Failed id => id

/-- `LoadResult::is_failed` from the source. -/
def LoadResult.is_failed : LoadResult → Bool
  | LoadResult.Failed _ => true
  | _ => false

/-- Recogniser for `Done` events (not in the source; used to state
properties of event sequences). -/
def LoadResult.is_done : LoadResult → Bool
  | LoadResult.Done _ => true
  | _ => false

/-- Recogniser for `Start` events. -/
def LoadResult.is_start : LoadResult → Bool
  | LoadResult.Start _ _ => true
  | _ => false

/-- Recogniser for `Frame` events. -/
def LoadResult.is_frame : LoadResult → Bool
  | LoadResult.Frame _ _ _ => true
  | _ => false

/-- Recogniser for terminal events (`Done` or `Failed`), per the spec
glossary. -/
def LoadResult.is_terminal (e : LoadResult) : Bool :=
  e.is_done || e.is_failed

/-- The frame-delay computation at lines 182-185 of the source, verbatim:
`numerator_nano = numerator_ms as u64 * 1_000_000`,
`denom_nano = denom_ms as u64 * 1_000_000`,
`delay_nano = numerator_nano / denom_nano` (u64 arithmetic, hence the
`% 2 ^ 64`; Lean's `Nat` division is total with `x / 0 = 0`, whereas the
Rust `u64` division panics on a zero denominator — theorems about traces
therefore carry a nonzero-denominator hypothesis, `frames_wf`). -/
def frame_delay_nano (numerator_ms denom_ms : Nat) : Nat :=
  let numerator_nano := numerator_ms * 1000000 % 2 ^ 64
  let denom_nano := denom_ms * 1000000 % 2 ^ 64
  numerator_nano / denom_nano

/-- Oracle for the external filesystem and codec calls the worker makes.
Each field models one fallible library call, per path:
`metadata` is `fs::metadata`; `open_for_sniff_ok` is the success of the
first `fs::File::open`; `read_512` is `read_exact` of the 512-byte sniff
buffer (`none` = short read or error); `guess_is_gif` is
`image::guess_format(..) == Ok(ImageFormat::Gif)`; `open_for_decode_ok`
is the success of the second `fs::File::open` in the GIF branch;
`gif_frames` is `GifDecoder::new(..).into_frames()` (`none` = decoder
construction failed, a `none` list item = that frame's decode `Err`);
`load_image` is `load_image` (i.e. `image::open(..)?.to_rgba()`). -/
structure Env where
  metadata : String → Option Metadata
  open_for_sniff_ok : String → Bool
  read_512 : String → Option (List Nat)
  guess_is_gif : List Nat → Bool
  open_for_decode_ok : String → Bool
  gif_frames : String → Option (List (Option GifFrame))
  load_image : String → Option RgbaImage

/-- The sniffing chain at lines 166-173 of the source: `is_gif` is set
exactly when the file opens, `read_exact` of 512 bytes succeeds, and
`guess_format` says GIF. -/
def sniff_is_gif (env : Env) (path : String) : Bool :=
  env.open_for_sniff_ok path &&
    match env.read_512 path with
    | some bytes => env.guess_is_gif bytes
    | none => false

/-- The `Frame` event the worker sends for one decoded GIF frame
(lines 182-189 of the source). -/
def frame_event (id : Nat) (f : GifFrame) : LoadResult :=
  LoadResult.Frame id f.buffer (frame_delay_nano f.numer_ms f.denom_ms)

/-- The `for frame in frames` loop at lines 180-194 of the source: emits a
`Frame` event per `Ok` frame in order, and stops at the first `Err` frame,
in which case the success flag (initialised `true` at line 179) ends up
`false`.  Returns the emitted events and the final value of
`load_succeeded`. -/
def frames_events (id : Nat) : List (Option GifFrame) → List LoadResult × Bool
  | [] => ([], true)
  | none :: _ => ([], false)
  | some f :: rest =>
    let r := frames_events id rest
    (frame_event id f :: r.1, r.2)

/-- The GIF branch at lines 175-196 of the source: reopen the file, build
the decoder, then run the frame loop; a failed open or failed decoder
construction leaves `load_succeeded` at `false` with no events. -/
def decode_gif (env : Env) (id : Nat) (path : String) : List LoadResult × Bool :=
  if env.open_for_decode_ok path then
    match env.gif_frames path with
    | some frames => frames_events id frames
    | none => ([], false)
  else ([], false)

/-- The single-frame branch at lines 197-205 of the source: decode the
whole image; on success emit `Frame` with `delay_nano: 0` then `Done` and
set `load_succeeded`; on failure emit nothing. -/
def decode_single (env : Env) (id : Nat) (path : String) : List LoadResult × Bool :=
  match env.load_image path with
  | some img => ([LoadResult.Frame id img 0, LoadResult.Done id], true)
  | none => ([], false)

/-- One iteration of `ImageLoader::thread_loop` (lines 163-209) after a
request has been received: the events the worker sends for that request,
in order.  If `fs::metadata` fails no `Start` is emitted and the final
`!load_succeeded` check sends `Failed`; otherwise `Start` is sent, then
the GIF or single-frame branch runs, then `Failed` is appended exactly
when `load_succeeded` is still `false`. -/
def thread_loop_iteration (env : Env) (req : LoadRequest) : List LoadResult :=
  match env.metadata req.path with
  | none => [LoadResult.Failed req.req_id]
  | some md =>
    let r :=
      if sniff_is_gif env req.path then decode_gif env req.req_id req.path
      else decode_single env req.req_id req.path
    LoadResult.Start req.req_id md ::
      (r.1 ++ (if r.2 then [] else [LoadResult.Failed req.req_id]))

/-- The worker loop `ImageLoader::thread_loop` (lines 158-210), as a
function of a schedule.  `flags` gives the successive values the worker
reads from the atomic `running` flag at the top of the loop (line 158);
`queue` gives the requests this worker's blocking `recv` (line 161)
returns, in order.  The flag is read before `recv`: a `true` reading
commits the worker to receiving and fully processing one more request;
a `false` reading exits the loop.  A worker whose queue is exhausted is
parked in `recv` and emits nothing more. -/
def thread_loop (env : Env) : List Bool → List LoadRequest → List LoadResult
  | [], _ => []
  | false :: _, _ => []
  | true :: _, [] => []
  | true :: flags, r :: rs => thread_loop_iteration env r ++ thread_loop env flags rs

/-- The dummy request pushed once per worker by `ImageLoader::drop`
(line 227): `req_id: 0`, empty path. -/
def poison_request : LoadRequest :=
  { req_id := 0, path := "" }

/-- One observable step of `ImageLoader::drop`. -/
inductive DropAction where
  | storeRunningFalse
  | sendRequest (r : LoadRequest)
  | joinWorker
  | logJoinError
deriving DecidableEq

/-- Recogniser for send steps of the drop sequence. -/
def DropAction.is_send : DropAction → Bool
  | DropAction.sendRequest _ => true
  | _ => false

/-- Recogniser for join steps of the drop sequence. -/
def DropAction.is_join : DropAction → Bool
  | DropAction.joinWorker => true
  | _ => false

/-- The action sequence of `ImageLoader::drop` (lines 222-236) when
`join_handles` holds `n` workers: store `false` into `running`, then send
one `poison_request` per handle, then join each handle in turn, logging
(`eprintln!`, never panicking) when a join fails; `join_fails i` is the
oracle for whether joining worker `i` returns `Err`. -/
def image_loader_drop_actions (n : Nat) (join_fails : Nat → Bool) : List DropAction :=
  DropAction.storeRunningFalse ::
    (List.replicate n (DropAction.sendRequest poison_request) ++
      (List.range n).flatMap fun i =>
        DropAction.joinWorker :: if join_fails i then [DropAction.logJoinError] else [])

/-- Well-formedness of a GIF frame list: every `Ok` frame has a nonzero
delay denominator.  Under this condition the Rust `u64` division in the
delay computation cannot panic, so the total Lean model agrees with the
code (a zero denominator is the unchecked-precondition edge case of
spec §9). -/
def frames_wf : List (Option GifFrame) → Bool
  | [] => true
  | none :: rest => frames_wf rest
  | some f :: rest => (f.denom_ms != 0) && frames_wf rest

/-- Well-formedness of the environment at one path: if a GIF frame stream
exists there, it is `frames_wf`. -/
def env_wf_at (env : Env) (path : String) : Bool :=
  match env.gif_frames path with
  | some frames => frames_wf frames
  | none => true

/-- Fuelled floor-log2, used below to model the bit length of a `u32`
value; `log2_fuel f n` equals `Nat.log 2 n` whenever `n < 2 ^ f`. -/
def log2_fuel : Nat → Nat → Nat
  | 0, _ => 0
  | fuel + 1, n => if n < 2 then 0 else log2_fuel fuel (n / 2) + 1

/-- Model of `u32::leading_zeros`: 32 minus the binary length of the
value (the binary length of `x > 0` is `floor(log2 x) + 1`, that of 0 is
0, so `u32_leading_zeros 0 = 32`). -/
def u32_leading_zeros (x : Nat) : Nat :=
  32 - (if x = 0 then 0 else log2_fuel 32 x + 1)

/-- The per-dimension exponent at lines 44-45 of the source:
`(31 as u32) - dimension.leading_zeros()`, a wrapping `u32` subtraction
(it underflows exactly when the dimension is 0, where `leading_zeros`
is 32). -/
def x_pow (w : Nat) : Nat :=
  (31 + 2 ^ 32 - u32_leading_zeros w) % 2 ^ 32

/-- `max_mipmap_levels` at line 47 of the source:
`x_pow.min(y_pow).min(4)`. -/
def max_mipmap_levels (w h : Nat) : Nat :=
  min (min (x_pow w) (x_pow h)) 4

/-- The two `glium::texture::MipmapsOption` variants the source uses. -/
inductive MipmapsOption where
  | NoMipmap
  | AutoGeneratedMipmapsMax (max_level : Nat)
deriving DecidableEq

/-- The mipmap option chosen by `texture_from_image` at lines 49-53 of
the source, as a function of the image dimensions: `NoMipmap` exactly
when `max_mipmap_levels == 1`, otherwise
`AutoGeneratedMipmapsMax(max_mipmap_levels)`. -/
def texture_from_image_mipmaps (w h : Nat) : MipmapsOption :=
  if max_mipmap_levels w h = 1 then MipmapsOption.NoMipmap
  else MipmapsOption.AutoGeneratedMipmapsMax (max_mipmap_levels w h)

/-- Split a character list at every occurrence of `c` (the pieces do not
contain `c`; `n` separators give `n + 1` pieces). -/
def split_on_char (c : Char) : List Char → List (List Char)
  | [] => [[]]
  | a :: rest =>
    let r := split_on_char c rest
    if a = c then [] :: r
    else
      match r with
      | [] => [[a]]
      | h :: t => (a :: h) :: t

/-- Model of `Path::file_name` for string paths: the last path component
after dropping empty and `"."` components (`Path::components` normalizes
`"."` away and collapses repeated separators); `none` when no component
remains or the path terminates in a `".."` component (so
`"photo.gif/."` yields `some "photo.gif"` and `"photo.gif/.."` yields
`none`, as in Rust). -/
def path_file_name (p : String) : Option String :=
  let comps := (split_on_char '/' p.data).filter fun c => c ≠ [] ∧ c ≠ ['.']
  match comps.getLast? with
  | some c => if c = ['.', '.'] then none else some (String.mk c)
  | none => none

/-- Model of the extension of a file name, per `Path::extension`: `none`
when the name contains no dot, or when its only dot is the leading one
(hidden files such as `".gitignore"`); otherwise the part after the last
dot (possibly empty, as for `"foo."`). -/
def file_extension (name : String) : Option String :=
  match split_on_char '.' name.data with
  | [] => none
  | [_] => none
  | first :: rest =>
    if first = [] ∧ rest.length = 1 then none
    else rest.getLast?.map String.mk

/-- `filename.extension()` composed over the two models above
(`ext.to_str()` always succeeds in this model, where paths are valid
strings). -/
def path_extension (p : String) : Option String :=
  match path_file_name p with
  | some name => file_extension name
  | none => none

/-- ASCII lowercasing of a string via `Char.toLower`, modelling
`str::to_lowercase` (which differs only on non-ASCII input; none of the
allow-listed extensions contains a character reachable from non-ASCII
lowercasing). -/
def lower_string (s : String) : String :=
  String.mk (s.data.map Char.toLower)

/-- The literal `match` of `is_file_supported` (lines 62-68 of the
source): does the already-lowercased extension hit the allow-list? -/
def ext_in_allow_list (s : String) : Bool :=
  match s with
  | "jpg" | "jpeg" | "png" | "gif" | "webp" | "tif" | "tiff" | "tga" | "bmp"
  | "ico" | "hdr" | "pbm" | "pam" | "ppm" | "pgm" => true
  | _ => false

/-- `is_file_supported` at lines 58-72 of the source: the lowercased
extension is matched against the fixed literal allow-list. -/
def is_file_supported (p : String) : Bool :=
  match path_extension p with
  | some ext => ext_in_allow_list (lower_string ext)
  | none => false

/-- The allow-list of §6 of the spec, as a list (used by the spec-side
predicate the source predicate is compared against). -/
def supported_extensions : List String :=
  ["jpg", "jpeg", "png", "gif", "webp", "tif", "tiff", "tga", "bmp",
   "ico", "hdr", "pbm", "pam", "ppm", "pgm"]

/-- Spec-side reading of the `is_supported` contract (§6): the path has
an extension whose case-insensitive form is on the allow-list. -/
def is_supported_spec (p : String) : Prop :=
  ∃ e, path_extension p = some e ∧ lower_string e ∈ supported_extensions

/-- Environment in which every external call fails: no path has metadata,
no file opens, nothing decodes. -/
def env0 : Env where
  metadata := fun _ => none
  open_for_sniff_ok := fun _ => false
  read_512 := fun _ => none
  guess_is_gif := fun _ => false
  open_for_decode_ok := fun _ => false
  gif_frames := fun _ => none
  load_image := fun _ => none

/-- A concrete pixel buffer used by the witness scenarios. -/
def img1 : RgbaImage :=
  { width := 2, height := 2, data := [0, 1, 2, 3] }

/-- A concrete GIF frame with a 2/1 millisecond delay. -/
def gframe1 : GifFrame :=
  { numer_ms := 2, denom_ms := 1, buffer := img1 }

/-- Environment for the C1 counterexample: `"zero.gif"` exists, sniffs as
GIF, and decodes to a clean stream of zero frames. -/
def envC1 : Env :=
  { env0 with
    metadata := fun p => if p = "zero.gif" then some { len := 10 } else none
    open_for_sniff_ok := fun p => p = "zero.gif"
    read_512 := fun p => if p = "zero.gif" then some [71, 73, 70] else none
    guess_is_gif := fun _ => true
    open_for_decode_ok := fun p => p = "zero.gif"
    gif_frames := fun p => if p = "zero.gif" then some [] else none }

/-- Environment for the C2 counterexample: `"anim.gif"` exists, sniffs as
GIF, and decodes cleanly to exactly one frame. -/
def envC2 : Env :=
  { env0 with
    metadata := fun p => if p = "anim.gif" then some { len := 20 } else none
    open_for_sniff_ok := fun p => p = "anim.gif"
    read_512 := fun p => if p = "anim.gif" then some [71, 73, 70] else none
    guess_is_gif := fun _ => true
    open_for_decode_ok := fun p => p = "anim.gif"
    gif_frames := fun p => if p = "anim.gif" then some [some gframe1] else none }

/-- Environment for the C6 witness: `"photo.png"` exists, does not sniff
as GIF, and decodes as a single frame. -/
def envC6 : Env :=
  { env0 with
    metadata := fun p => if p = "photo.png" then some { len := 30 } else none
    open_for_sniff_ok := fun p => p = "photo.png"
    read_512 := fun p => if p = "photo.png" then some [137, 80, 78, 71] else none
    guess_is_gif := fun _ => false
    load_image := fun p => if p = "photo.png" then some img1 else none }

/-- Environment for the C8 witness: `"broken.gif"` exists, sniffs as GIF,
and its stream has one good frame followed by a corrupt one. -/
def envC8 : Env :=
  { env0 with
    metadata := fun p => if p = "broken.gif" then some { len := 40 } else none
    open_for_sniff_ok := fun p => p = "broken.gif"
    read_512 := fun p => if p = "broken.gif" then some [71, 73, 70] else none
    guess_is_gif := fun _ => true
    open_for_decode_ok := fun p => p = "broken.gif"
    gif_frames := fun p => if p = "broken.gif" then some [some gframe1, none] else none }

/-- Per-request protocol shape the worker actually guarantees: either the
single event `Failed` (metadata was unobtainable, no `Start`), or a
`Start` first, then only `Frame` events, then a tail that is empty, a
single `Done`, or a single `Failed`.  This is the spec's §3 invariant
weakened from "exactly one terminal event" to "at most one": the clean
multi-frame path ends with an empty tail. -/
def good_sequence (id : Nat) (l : List LoadResult) : Prop :=
  l = [LoadResult.Failed id] ∨
    ∃ md body tail,
      l = LoadResult.Start id md :: (body ++ tail) ∧
      (∀ e ∈ body, e.is_frame = true ∧ e.req_id = id) ∧
      (tail = [] ∨ tail = [LoadResult.Done id] ∨ tail = [LoadResult.Failed id])

/-- Every event the frame loop emits is a `Frame` carrying the request
id. -/
theorem frames_events_mem (id : Nat) (frames : List (Option GifFrame)) :
    ∀ e ∈ (frames_events id frames).1, e.is_frame = true ∧ e.req_id = id := by
  induction frames with
  | nil => simp [frames_events]
  | cons f rest ih =>
    cases f with
    | none => simp [frames_events]
    | some g =>
      intro e he
      simp only [frames_events, List.mem_cons] at he
      rcases he with h | h
      · subst h
        exact ⟨rfl, rfl⟩
      · exact ih e h

/-- Every event the GIF branch emits is a `Frame` carrying the request
id. -/
theorem decode_gif_mem (env : Env) (id : Nat) (path : String) :
    ∀ e ∈ (decode_gif env id path).1, e.is_frame = true ∧ e.req_id = id := by
  unfold decode_gif
  by_cases ho : env.open_for_decode_ok path
  · simp only [ho, if_true]
    cases hp : env.gif_frames path with
    | none => simp
    | some frames => exact frames_events_mem id frames
  · simp [ho]

/-- A stream of `k` clean frames makes the frame loop emit exactly the
`k` corresponding `Frame` events and leave `load_succeeded` at `true`. -/
theorem frames_events_clean (id : Nat) (gs : List GifFrame) :
    frames_events id (gs.map some) = (gs.map (frame_event id), true) := by
  induction gs with
  | nil => rfl
  | cons g t ih => simp [frames_events, ih]

/-- A stream whose first `Err` frame comes after `gs` makes the frame
loop emit exactly the events for `gs`, drop everything after the failed
frame, and clear `load_succeeded`. -/
theorem frames_events_corrupt (id : Nat) (gs : List GifFrame)
    (rest : List (Option GifFrame)) :
    frames_events id (gs.map some ++ none :: rest)
      = (gs.map (frame_event id), false) := by
  induction gs with
  | nil => rfl
  | cons g t ih => simp [frames_events, ih]

/-- The fuelled log agrees with `Nat.log 2` as soon as the fuel covers
the value. -/
theorem log2_fuel_eq_log (f : Nat) : ∀ n : Nat, n < 2 ^ f → log2_fuel f n = Nat.log 2 n := by
  induction f with
  | zero =>
    intro n h
    have hn : n = 0 := by omega
    subst hn
    simp [log2_fuel]
  | succ f ih =>
    intro n h
    by_cases h2 : n < 2
    · rw [log2_fuel, if_pos h2]
      exact (Nat.log_eq_zero_iff.mpr (Or.inl h2)).symm
    · have h2' : 2 ≤ n := by omega
      have hd : n / 2 < 2 ^ f := by
        rw [Nat.div_lt_iff_lt_mul (by norm_num : 0 < 2)]
        calc n < 2 ^ (f + 1) := h
          _ = 2 ^ f * 2 := by ring
      have hlog : Nat.log 2 n = Nat.log 2 (n / 2) + 1 := by
        have hpos : 0 < Nat.log 2 n := Nat.log_pos (by norm_num) h2'
        have hdiv := Nat.log_div_base 2 n
        omega
      rw [log2_fuel, if_neg h2, ih (n / 2) hd, hlog]

/-- For a nonzero `u32` dimension, the exponent the source computes as
`31 - leading_zeros` is exactly the floor base-2 logarithm: the wrapping
subtraction does not underflow there. -/
theorem x_pow_eq_log (w : Nat) (h1 : 1 ≤ w) (h2 : w < 2 ^ 32) :
    x_pow w = Nat.log 2 w := by
  have hw : w ≠ 0 := by omega
  have hl : log2_fuel 32 w = Nat.log 2 w := log2_fuel_eq_log 32 w h2
  have hlog31 : Nat.log 2 w ≤ 31 := by
    have := Nat.log_lt_of_lt_pow hw h2
    omega
  unfold x_pow u32_leading_zeros
  rw [if_neg hw, hl]
  have h32 : (32 : Nat) - (Nat.log 2 w + 1) = 31 - Nat.log 2 w := by omega
  rw [h32]
  have hsum : 31 + 2 ^ 32 - (31 - Nat.log 2 w) = 2 ^ 32 + Nat.log 2 w := by omega
  rw [hsum, Nat.add_mod_left]
  exact Nat.mod_eq_of_lt (by omega)

/-- What the delay computation of lines 182-185 really evaluates to on
`u32` inputs: the common `1_000_000` factor cancels, so the value stored
into `delay_nano` is `numerator_ms / denom_ms`, the (truncated) delay in
milliseconds, not in nanoseconds. -/
theorem frame_delay_nano_cancels (n d : Nat) (hn : n < 2 ^ 32) (hd : d < 2 ^ 32) :
    frame_delay_nano n d = n / d := by
  unfold frame_delay_nano
  have h1 : n * 1000000 < 2 ^ 64 := by
    calc n * 1000000 < 2 ^ 32 * 1000000 := by
          exact (Nat.mul_lt_mul_right (by norm_num)).mpr hn
      _ < 2 ^ 64 := by norm_num
  have h2 : d * 1000000 < 2 ^ 64 := by
    calc d * 1000000 < 2 ^ 32 * 1000000 := by
          exact (Nat.mul_lt_mul_right (by norm_num)).mpr hd
      _ < 2 ^ 64 := by norm_num
  rw [Nat.mod_eq_of_lt h1, Nat.mod_eq_of_lt h2]
  exact Nat.mul_div_mul_right n d (by norm_num)

/-- The literal `match` of the source and list membership in the spec's
allow-list agree. -/
theorem ext_in_allow_list_iff_mem (s : String) :
    ext_in_allow_list s = true ↔ s ∈ supported_extensions := by
  unfold ext_in_allow_list
  split <;> simp_all [supported_extensions]

/-- Shape of the join phase of the drop sequence: all its steps are joins
or log entries, and it joins each of the `n` workers exactly once. -/
theorem drop_join_part_shape (join_fails : Nat → Bool) (l : List Nat) :
    (∀ a ∈ l.flatMap fun i =>
        DropAction.joinWorker :: if join_fails i then [DropAction.logJoinError] else [],
      a = DropAction.joinWorker ∨ a = DropAction.logJoinError) ∧
    (l.flatMap fun i =>
        DropAction.joinWorker :: if join_fails i then [DropAction.logJoinError] else []).countP
      DropAction.is_join = l.length := by
  induction l with
  | nil => simp
  | cons a t ih =>
    constructor
    · intro x hx
      rw [List.flatMap_cons, List.mem_append] at hx
      rcases hx with hx | hx
      · cases hj : join_fails a <;> simp [hj] at hx <;> tauto
      · exact ih.1 x hx
    · rw [List.flatMap_cons, List.countP_append, ih.2]
      cases hj : join_fails a <;>
        simp [hj, List.countP_cons, DropAction.is_join, List.length_cons] <;> omega

/-- C1 (amended).  For every request, the emitted sequence is: zero or
one `Start` (the `Start`, when present, is first), followed by zero or
more `Frame` events (so `Frame` appears only after a `Start`), followed
by AT MOST one terminal event (`Done` xor `Failed`), which, when present,
is last; and every event carries the request's id.  The claim's "exactly
one terminal event" is false: a GIF stream that decodes cleanly ends with
no terminal event at all (see the counterexample).  The `env_wf_at`
hypothesis rules out the zero-delay-denominator edge case, where the Rust
`u64` division would panic (spec §9). -/
theorem C1_protocol_shape (env : Env) (req : LoadRequest)
    (_hwf : env_wf_at env req.path = true) :
    good_sequence req.req_id (thread_loop_iteration env req) ∧
      ∀ e ∈ thread_loop_iteration env req, e.req_id = req.req_id := by
  cases hm : env.metadata req.path with
  | none =>
    simp only [thread_loop_iteration, hm]
    refine ⟨Or.inl rfl, ?_⟩
    intro e he
    simp only [List.mem_singleton] at he
    subst he
    rfl
  | some md =>
    cases hg : sniff_is_gif env req.path with
    | false =>
      cases hi : env.load_image req.path with
      | none =>
        simp only [thread_loop_iteration, hm, hg, decode_single, hi,
          Bool.false_eq_true, if_false, List.nil_append]
        refine ⟨Or.inr ⟨md, [], [LoadResult.Failed req.req_id], by simp, by simp, by simp⟩, ?_⟩
        intro e he
        simp only [List.mem_cons, List.mem_singleton, List.not_mem_nil, or_false] at he
        rcases he with h | h <;> subst h <;> rfl
      | some img =>
        simp only [thread_loop_iteration, hm, hg, decode_single, hi,
          Bool.false_eq_true, if_false, if_true]
        refine ⟨Or.inr ⟨md, [LoadResult.Frame req.req_id img 0], [LoadResult.Done req.req_id],
          by simp, by simp [LoadResult.is_frame, LoadResult.req_id], by simp⟩, ?_⟩
        intro e he
        simp only [List.mem_cons, List.mem_singleton, List.append_nil, List.not_mem_nil,
          or_false] at he
        rcases he with h | h | h <;> subst h <;> rfl
    | true =>
      simp only [thread_loop_iteration, hm, hg, if_true]
      constructor
      · exact Or.inr ⟨md, (decode_gif env req.req_id req.path).1,
          (if (decode_gif env req.req_id req.path).2 then []
            else [LoadResult.Failed req.req_id]), rfl,
          decode_gif_mem env req.req_id req.path, by
            cases (decode_gif env req.req_id req.path).2 <;> simp⟩
      · intro e he
        simp only [List.mem_cons, List.mem_append] at he
        rcases he with h | h | h
        · subst h; rfl
        · exact (decode_gif_mem env req.req_id req.path e h).2
        · cases hb : (decode_gif env req.req_id req.path).2 <;> rw [hb] at h
          · simp only [Bool.false_eq_true, if_false, List.mem_singleton] at h
            subst h; rfl
          · simp at h

/-- Witness for C1: the amended protocol shape at a concrete environment
and request (a single-frame decode). -/
theorem C1_protocol_shape_witness :
    good_sequence 3 (thread_loop_iteration envC6 { req_id := 3, path := "photo.png" }) ∧
      ∀ e ∈ thread_loop_iteration envC6 { req_id := 3, path := "photo.png" },
        e.req_id = 3 :=
  C1_protocol_shape envC6 { req_id := 3, path := "photo.png" } (by decide)

/-- Counterexample to C1 as stated: a GIF whose (empty) frame stream
decodes cleanly produces the sequence `[Start]` — zero terminal events,
not exactly one. -/
theorem C1_counterexample :
    thread_loop_iteration envC1 { req_id := 7, path := "zero.gif" }
        = [LoadResult.Start 7 { len := 10 }] ∧
      (thread_loop_iteration envC1 { req_id := 7, path := "zero.gif" }).countP
          (fun e => e.is_terminal) ≠ 1 := by
  decide

/-- C2 (amended).  A GIF stream of `k` frames that decodes cleanly yields
`[Start, Frame × k]` with NO terminal event: no `Done` (and no `Failed`)
is ever emitted on the multi-frame success path — only the single-frame
success path sends `Done`.  The frame count of the output equals the
source frame count. -/
theorem C2_clean_gif_trace (env : Env) (req : LoadRequest) (md : Metadata)
    (gs : List GifFrame)
    (hm : env.metadata req.path = some md)
    (hg : sniff_is_gif env req.path = true)
    (ho : env.open_for_decode_ok req.path = true)
    (hf : env.gif_frames req.path = some (gs.map some)) :
    thread_loop_iteration env req
        = LoadResult.Start req.req_id md :: gs.map (frame_event req.req_id) ∧
      (gs.map (frame_event req.req_id)).length = gs.length ∧
      ∀ e ∈ thread_loop_iteration env req, e.is_done = false ∧ e.is_failed = false := by
  have hiter : thread_loop_iteration env req
      = LoadResult.Start req.req_id md :: gs.map (frame_event req.req_id) := by
    simp only [thread_loop_iteration, hm, hg, if_true, decode_gif, ho, hf,
      frames_events_clean, List.append_nil]
  refine ⟨hiter, List.length_map _ _, ?_⟩
  intro e he
  rw [hiter] at he
  simp only [List.mem_cons] at he
  rcases he with h | h
  · subst h; exact ⟨rfl, rfl⟩
  · rcases List.mem_map.mp h with ⟨g, _, hgev⟩
    subst hgev
    exact ⟨rfl, rfl⟩

/-- Witness for C2 (amended) at a concrete one-frame clean GIF. -/
theorem C2_clean_gif_trace_witness :
    thread_loop_iteration envC2 { req_id := 1, path := "anim.gif" }
        = LoadResult.Start 1 { len := 20 } :: [gframe1].map (frame_event 1) ∧
      ([gframe1].map (frame_event 1)).length = [gframe1].length ∧
      ∀ e ∈ thread_loop_iteration envC2 { req_id := 1, path := "anim.gif" },
        e.is_done = false ∧ e.is_failed = false :=
  C2_clean_gif_trace envC2 { req_id := 1, path := "anim.gif" } { len := 20 }
    [gframe1] (by decide) (by decide) (by decide) (by decide)

/-- Counterexample to C2 as stated: a valid one-frame GIF decodes
cleanly (no `Failed`), yet the emitted sequence is `[Start, Frame]` with
zero `Done` events, not `[Start, Frame, Done]`. -/
theorem C2_counterexample :
    thread_loop_iteration envC2 { req_id := 1, path := "anim.gif" }
        = [LoadResult.Start 1 { len := 20 }, LoadResult.Frame 1 img1 2] ∧
      (thread_loop_iteration envC2 { req_id := 1, path := "anim.gif" }).countP
          (fun e => e.is_done) = 0 ∧
      (thread_loop_iteration envC2 { req_id := 1, path := "anim.gif" }).countP
          (fun e => e.is_failed) = 0 := by
  decide

/-- C3 (code bug).  The value stored into `delay_nano` diverges from the
claimed `numerator_ms * 1_000_000 / denominator_ms`: at the failing input
`(numerator_ms, denom_ms) = (100, 1)` — a 100 ms frame delay — the code
yields 100 where the claim requires 100_000_000.  The code multiplies
BOTH operands by `1_000_000` before dividing, so the factor cancels (see
`frame_delay_nano_cancels`) and the nanosecond conversion is lost; the
variable names `numerator_nano`/`denom_nano`/`delay_nano` show nanoseconds
was the intent. -/
theorem C3_delay_divergence :
    frame_delay_nano 100 1 = 100 ∧
      100 * 1000000 / 1 = 100000000 ∧
      frame_delay_nano 100 1 ≠ 100 * 1000000 / 1 := by
  decide

/-- C4 (amended).  On drop, the running flag is cleared first, then
exactly one poison request (`req_id: 0`, empty path) per worker is
pushed, then the join phase runs: one join per worker, with failures
logged, never panicking.  But a worker that is parked in the blocking
receive has already passed the flag check: the poison message wakes it
and it PROCESSES the poison as an ordinary request — metadata for the
empty path fails, so it emits exactly one `Failed` event with `req_id` 0
— and only then re-checks the flag and exits.  (The claim's "exits
without processing the poison payload / emits no result events" is
false; see the counterexample.) -/
theorem C4_shutdown (n : Nat) (join_fails : Nat → Bool) (env : Env)
    (flags : List Bool) (hmd : env.metadata "" = none) :
    (∃ join_part,
      image_loader_drop_actions n join_fails
          = DropAction.storeRunningFalse ::
              (List.replicate n (DropAction.sendRequest poison_request) ++ join_part) ∧
        (∀ a ∈ join_part, a = DropAction.joinWorker ∨ a = DropAction.logJoinError) ∧
        join_part.countP DropAction.is_join = n) ∧
      thread_loop env (true :: false :: flags) [poison_request]
          = [LoadResult.Failed 0] ∧
      thread_loop_iteration env poison_request = [LoadResult.Failed 0] := by
  have hiter : thread_loop_iteration env poison_request = [LoadResult.Failed 0] := by
    simp only [thread_loop_iteration, poison_request, hmd]
  refine ⟨⟨(List.range n).flatMap fun i =>
      DropAction.joinWorker :: if join_fails i then [DropAction.logJoinError] else [],
      rfl, (drop_join_part_shape join_fails (List.range n)).1, ?_⟩, ?_, hiter⟩
  · rw [(drop_join_part_shape join_fails (List.range n)).2, List.length_range]
  · simp only [thread_loop, hiter, List.append_nil]

/-- Witness for C4 (amended): two workers, the second join failing, in
the all-failures environment. -/
theorem C4_shutdown_witness :
    (∃ join_part,
      image_loader_drop_actions 2 (fun i => decide (i = 1))
          = DropAction.storeRunningFalse ::
              (List.replicate 2 (DropAction.sendRequest poison_request) ++ join_part) ∧
        (∀ a ∈ join_part, a = DropAction.joinWorker ∨ a = DropAction.logJoinError) ∧
        join_part.countP DropAction.is_join = 2) ∧
      thread_loop env0 (true :: false :: []) [poison_request]
          = [LoadResult.Failed 0] ∧
      thread_loop_iteration env0 poison_request = [LoadResult.Failed 0] :=
  C4_shutdown 2 (fun i => decide (i = 1)) env0 [] rfl

/-- Counterexample to C4 as stated: a worker that read `running = true`
and parked in `recv` is woken by the poison request and emits a `Failed`
event for it (`req_id` 0) — not "no result events". -/
theorem C4_counterexample :
    thread_loop env0 [true, false] [poison_request] = [LoadResult.Failed 0] ∧
      thread_loop env0 [true, false] [poison_request] ≠ [] := by
  decide

/-- C5 (amended).  For dimensions in `[1, 2^32)` the mipmap level count
is `min(floor(log2 w), floor(log2 h), 4)`, and mipmapping is disabled
exactly when that count is 1; 256×256 yields 4 and 3×5 yields 1
(`NoMipmap`).  The claim's 1×1 example is wrong: a 1×1 image yields
level-count 0, and since 0 ≠ 1 the `NoMipmap` branch is NOT taken —
the option is `AutoGeneratedMipmapsMax 0`. -/
theorem C5_mipmap_levels (w h : Nat) (hw1 : 1 ≤ w) (hw2 : w < 2 ^ 32)
    (hh1 : 1 ≤ h) (hh2 : h < 2 ^ 32) :
    max_mipmap_levels w h = min (min (Nat.log 2 w) (Nat.log 2 h)) 4 ∧
      (texture_from_image_mipmaps w h = MipmapsOption.NoMipmap
        ↔ max_mipmap_levels w h = 1) ∧
      max_mipmap_levels 256 256 = 4 ∧
      max_mipmap_levels 3 5 = 1 ∧
      texture_from_image_mipmaps 3 5 = MipmapsOption.NoMipmap ∧
      max_mipmap_levels 1 1 = 0 ∧
      texture_from_image_mipmaps 1 1 = MipmapsOption.AutoGeneratedMipmapsMax 0 := by
  refine ⟨?_, ?_, by decide, by decide, by decide, by decide, by decide⟩
  · unfold max_mipmap_levels
    rw [x_pow_eq_log w hw1 hw2, x_pow_eq_log h hh1 hh2]
  · by_cases h1 : max_mipmap_levels w h = 1 <;>
      simp [texture_from_image_mipmaps, h1]

/-- Witness for C5 (amended) at 256×256. -/
theorem C5_mipmap_levels_witness :
    max_mipmap_levels 256 256 = min (min (Nat.log 2 256) (Nat.log 2 256)) 4 ∧
      (texture_from_image_mipmaps 256 256 = MipmapsOption.NoMipmap
        ↔ max_mipmap_levels 256 256 = 1) ∧
      max_mipmap_levels 256 256 = 4 ∧
      max_mipmap_levels 3 5 = 1 ∧
      texture_from_image_mipmaps 3 5 = MipmapsOption.NoMipmap ∧
      max_mipmap_levels 1 1 = 0 ∧
      texture_from_image_mipmaps 1 1 = MipmapsOption.AutoGeneratedMipmapsMax 0 :=
  C5_mipmap_levels 256 256 (by decide) (by decide) (by decide) (by decide)

/-- Counterexample to C5 as stated: a 1×1 image yields level-count 0,
not 1, and mipmapping is consequently NOT routed to `NoMipmap`. -/
theorem C5_counterexample :
    max_mipmap_levels 1 1 = 0 ∧
      max_mipmap_levels 1 1 ≠ 1 ∧
      texture_from_image_mipmaps 1 1 ≠ MipmapsOption.NoMipmap := by
  decide

/-- C6 (confirmed).  A request whose metadata resolves, which does not
sniff as GIF, and whose whole-image decode succeeds, yields exactly
`[Start, Frame(delay 0), Done]`. -/
theorem C6_single_frame_trace (env : Env) (req : LoadRequest) (md : Metadata)
    (img : RgbaImage)
    (hm : env.metadata req.path = some md)
    (hg : sniff_is_gif env req.path = false)
    (hi : env.load_image req.path = some img) :
    thread_loop_iteration env req
      = [LoadResult.Start req.req_id md, LoadResult.Frame req.req_id img 0,
          LoadResult.Done req.req_id] := by
  simp only [thread_loop_iteration, hm, hg, Bool.false_eq_true, if_false,
    decode_single, hi, if_true, List.append_nil]

/-- Witness for C6 at a concrete single-frame environment. -/
theorem C6_single_frame_trace_witness :
    thread_loop_iteration envC6 { req_id := 3, path := "photo.png" }
      = [LoadResult.Start 3 { len := 30 }, LoadResult.Frame 3 img1 0,
          LoadResult.Done 3] :=
  C6_single_frame_trace envC6 { req_id := 3, path := "photo.png" } { len := 30 }
    img1 (by decide) (by decide) (by decide)

/-- C7 (confirmed).  When filesystem metadata cannot be resolved the
worker emits exactly one `Failed` event — no `Start`, `Frame` or `Done`
— and continues its loop: with the flag still set it goes on to process
the next queued request. -/
theorem C7_metadata_failure (env : Env) (req : LoadRequest)
    (hm : env.metadata req.path = none) :
    thread_loop_iteration env req = [LoadResult.Failed req.req_id] ∧
      ∀ flags queue, thread_loop env (true :: flags) (req :: queue)
        = LoadResult.Failed req.req_id :: thread_loop env flags queue := by
  have hiter : thread_loop_iteration env req = [LoadResult.Failed req.req_id] := by
    simp only [thread_loop_iteration, hm]
  refine ⟨hiter, ?_⟩
  intro flags queue
  simp only [thread_loop, hiter, List.cons_append, List.nil_append]

/-- Witness for C7: a request for a path with no metadata, followed by a
stopped loop. -/
theorem C7_metadata_failure_witness :
    thread_loop_iteration env0 { req_id := 9, path := "missing.png" }
        = [LoadResult.Failed 9] ∧
      ∀ flags queue,
        thread_loop env0 (true :: flags) ({ req_id := 9, path := "missing.png" } :: queue)
          = LoadResult.Failed 9 :: thread_loop env0 flags queue :=
  C7_metadata_failure env0 { req_id := 9, path := "missing.png" } rfl

/-- C8 (confirmed).  A GIF stream with `j - 1` clean frames followed by a
corrupt one yields `[Start, Frame × (j-1), Failed]`: iteration stops at
the corrupt frame, nothing after it (`rest`) is emitted, the
already-emitted frames stand, and the terminal event is `Failed`. -/
theorem C8_corrupt_frame_trace (env : Env) (req : LoadRequest) (md : Metadata)
    (gs : List GifFrame) (rest : List (Option GifFrame))
    (hm : env.metadata req.path = some md)
    (hg : sniff_is_gif env req.path = true)
    (ho : env.open_for_decode_ok req.path = true)
    (hf : env.gif_frames req.path = some (gs.map some ++ none :: rest)) :
    thread_loop_iteration env req
        = LoadResult.Start req.req_id md ::
            (gs.map (frame_event req.req_id) ++ [LoadResult.Failed req.req_id]) ∧
      (gs.map (frame_event req.req_id)).length = gs.length := by
  refine ⟨?_, List.length_map _ _⟩
  simp only [thread_loop_iteration, hm, hg, if_true, decode_gif, ho, hf,
    frames_events_corrupt, Bool.false_eq_true, if_false]

/-- Witness for C8: one clean frame then a corrupt one. -/
theorem C8_corrupt_frame_trace_witness :
    thread_loop_iteration envC8 { req_id := 4, path := "broken.gif" }
        = LoadResult.Start 4 { len := 40 } ::
            ([gframe1].map (frame_event 4) ++ [LoadResult.Failed 4]) ∧
      ([gframe1].map (frame_event 4)).length = [gframe1].length :=
  C8_corrupt_frame_trace envC8 { req_id := 4, path := "broken.gif" } { len := 40 }
    [gframe1] [] (by decide) (by decide) (by decide) (by decide)

/-- C9 (confirmed).  `is_file_supported` holds exactly when the path has
an extension whose lowercased form is on the fixed allow-list; in
particular it accepts "photo.JPG" and "a.PnG" and rejects "readme.txt"
and every path without an extension. -/
theorem C9_is_supported (p : String) :
    (is_file_supported p = true ↔ is_supported_spec p) ∧
      is_file_supported "photo.JPG" = true ∧
      is_file_supported "a.PnG" = true ∧
      is_file_supported "readme.txt" = false ∧
      (path_extension p = none → is_file_supported p = false) := by
  refine ⟨?_, by decide, by decide, by decide, ?_⟩
  · unfold is_file_supported is_supported_spec
    cases he : path_extension p with
    | none => simp
    | some e => simp [ext_in_allow_list_iff_mem]
  · intro h
    simp [is_file_supported, h]

/-- Witness for C9 at a path with no extension. -/
theorem C9_is_supported_witness :
    (is_file_supported "noext" = true ↔ is_supported_spec "noext") ∧
      is_file_supported "photo.JPG" = true ∧
      is_file_supported "a.PnG" = true ∧
      is_file_supported "readme.txt" = false ∧
      (path_extension "noext" = none → is_file_supported "noext" = false) :=
  C9_is_supported "noext"

/-- C10 (confirmed).  `leading_zeros` of a zero `u32` dimension is 32, so
the `31 - leading_zeros` subtraction underflows there (wrapping to
`2^32 - 1` in the model); for any dimension of at least 1 the count is at
most 31 and the subtraction is safe, so the computation is well-defined
exactly under the dimensions-at-least-1 precondition. -/
theorem C10_zero_dimension_underflow (w : Nat) (h1 : 1 ≤ w) (h2 : w < 2 ^ 32) :
    u32_leading_zeros 0 = 32 ∧
      31 < u32_leading_zeros 0 ∧
      x_pow 0 = 2 ^ 32 - 1 ∧
      u32_leading_zeros w ≤ 31 := by
  refine ⟨by decide, by decide, by decide, ?_⟩
  have hw : w ≠ 0 := by omega
  simp only [u32_leading_zeros, hw, if_false]
  omega

/-- Witness for C10 at dimension 3. -/
theorem C10_zero_dimension_underflow_witness :
    u32_leading_zeros 0 = 32 ∧
      31 < u32_leading_zeros 0 ∧
      x_pow 0 = 2 ^ 32 - 1 ∧
      u32_leading_zeros 3 ≤ 31 :=
  C10_zero_dimension_underflow 3 (by decide) (by decide)
